import Mathlib

/-!
Verification of the PrometheusAI chatbot backend (src/app.py).

The Python code is shallowly embedded: pure string logic is translated to
executable Lean functions over `String`/`List Char`; network calls
(`requests`), HTML parsing (`BeautifulSoup`) and JSON decoding
(`json.loads`) are external collaborators and appear as explicit oracle
parameters.  Python string semantics (`in`, `lower`, `strip`, `replace`,
`split`, `splitlines`, slicing, truthiness) are modelled by dedicated
helpers below whose names start with `py`.
-/

/-! ### Python string primitives -/

/-- Python substring test `needle in hay` on character lists. -/
def containsSub (needle : List Char) : List Char → Bool
  | [] => needle.isEmpty
  | c :: rest => needle.isPrefixOf (c :: rest) || containsSub needle rest

/-- Python `needle in hay` for strings. -/
def pyIn (needle hay : String) : Bool := containsSub needle.data hay.data

/-- Python `str.lower` (ASCII case folding, which is all the source relies on). -/
def pyLower (s : String) : String := String.mk (s.data.map Char.toLower)

/-- Characters removed by Python `str.strip()` with no arguments. -/
def isPySpace (c : Char) : Bool :=
  c = ' ' || c = '\t' || c = '\n' || c = '\r' || c = '\x0b' || c = '\x0c'

/-- Python `str.strip()` on character lists. -/
def pyStripL (s : List Char) : List Char :=
  ((s.dropWhile isPySpace).reverse.dropWhile isPySpace).reverse

/-- Python `str.strip()`. -/
def pyStrip (s : String) : String := String.mk (pyStripL s.data)

/-- Python `str.replace(old, new)` (all non-overlapping occurrences, left to
right).  The fuel argument only serves Lean's termination checker; callers
pass the length of the subject list, which the recursion never exhausts for
the non-empty patterns used by the source. -/
def pyReplaceFuel (old new : List Char) : Nat → List Char → List Char
  | _, [] => []
  | 0, s => s
  | fuel + 1, c :: rest =>
    if old.isPrefixOf (c :: rest) then new ++ pyReplaceFuel old new fuel ((c :: rest).drop old.length)
    else c :: pyReplaceFuel old new fuel rest

/-- Python `s.replace(old, new)` for strings. -/
def pyReplace (s old new : String) : String :=
  String.mk (pyReplaceFuel old.data new.data s.data.length s.data)

/-- Python `str.split(sep)` for a fixed non-empty separator; fuel as in
`pyReplaceFuel`. -/
def pySplitFuel (sep : List Char) (acc : List Char) : Nat → List Char → List (List Char)
  | _, [] => [acc.reverse]
  | 0, s => [acc.reverse ++ s]
  | fuel + 1, c :: rest =>
    if sep.isPrefixOf (c :: rest) then acc.reverse :: pySplitFuel sep [] fuel ((c :: rest).drop sep.length)
    else pySplitFuel sep (c :: acc) fuel rest

/-- Python `s.split(sep)` for strings. -/
def pySplit (s sep : String) : List String :=
  (pySplitFuel sep.data [] s.data.length s.data).map String.mk

/-- Python `str.splitlines()` accumulator: closes a line at `\r\n`, `\r` or
`\n`; no trailing empty line is produced for a trailing terminator. -/
def pySplitLinesAux : List Char → List Char → List (List Char)
  | [], [] => []
  | [], acc => [acc.reverse]
  | '\r' :: '\n' :: rest, acc => acc.reverse :: pySplitLinesAux rest []
  | '\r' :: rest, acc => acc.reverse :: pySplitLinesAux rest []
  | '\n' :: rest, acc => acc.reverse :: pySplitLinesAux rest []
  | c :: rest, acc => pySplitLinesAux rest (c :: acc)

/-- Python `str.splitlines()`. -/
def pySplitLines (s : String) : List String :=
  (pySplitLinesAux s.data []).map String.mk

/-- Python `s.startswith(p)`. -/
def pyStartsWith (s p : String) : Bool := p.data.isPrefixOf s.data

/-- Python slice `s[n:]`. -/
def pyDrop (s : String) (n : Nat) : String := String.mk (s.data.drop n)

/-- Python slice `s[:n]`. -/
def pyTake (s : String) (n : Nat) : String := String.mk (s.data.take n)

/-- Python slice `l[-n:]` for a list (the last `n` elements, or the whole
list when it is shorter). -/
def pyLastN {α : Type} (l : List α) (n : Nat) : List α := l.drop (l.length - n)

/-- The apostrophe character, kept out of string literals. -/
def apoc : Char := Char.ofNat 39

/-- The one-character apostrophe string. -/
def apos : String := String.mk [apoc]

/-! ### Text Sanitizer: `SimpleChatbot.clean_text` (src/app.py lines 428-436) -/

/-- `clean_text`: guard for falsy input, then `text.replace(chr(0xFFFD), "")`,
then keep only characters with code point below `0x10000`. -/
def clean_text (text : String) : String :=
  if text.data.isEmpty then ""
  else
    let cleaned := String.mk (text.data.filter (fun c => c != Char.ofNat 0xFFFD))
    String.mk (cleaned.data.filter (fun c => c.toNat < 0x10000))

/-! ### Augmentation Trigger: `SimpleChatbot.should_search_web` (lines 438-457) -/

/-- The `search_indicators` list from `should_search_web`. -/
def search_indicators : List String :=
  ["latest", "current", "recent", "today", "news", "courses at",
   "programs at", "what are the", "list", "find", "search",
   "website", "url", "information about", "details about",
   "time", "date", "now", "right now", "currently",
   "what is the date", "what is the time", "what time is it"]

/-- The `time_date_keywords` list from `should_search_web`. -/
def time_date_keywords : List String :=
  ["time", "date", "today", "now", "right now", "currently", "what time"]

/-- The institutional keyword list inlined in `should_search_web`. -/
def institutional_keywords : List String :=
  ["university", "college", "school", "courses", "programs"]

/-- `should_search_web`: three sequential any-membership checks over the
lower-cased query. -/
def should_search_web (query : String) : Bool :=
  let query_lower := pyLower query
  if time_date_keywords.any (fun k => pyIn k query_lower) then true
  else if institutional_keywords.any (fun k => pyIn k query_lower) then true
  else search_indicators.any (fun k => pyIn k query_lower)

/-- Every keyword that can trigger `should_search_web`. -/
def allTriggerKeywords : List String :=
  time_date_keywords ++ institutional_keywords ++ search_indicators

/-! ### Augmentation Trigger: `SimpleChatbot.extract_search_query` (lines 459-476) -/

/-- The `question_words` list from `extract_search_query`;
`"what" ++ apos ++ "s"` spells the contracted form. -/
def question_words : List String :=
  ["what are", "tell me", "show me", "can you", "please", "find",
   "what is", "what" ++ apos ++ "s"]

/-- The `else` branch of `extract_search_query`: starting from the raw query,
each pass lower-cases and removes one question phrase, then the result is
stripped. -/
def stripQuestionWords (user_query : String) : String :=
  pyStrip (question_words.foldl (fun sq w => pyReplace (pyLower sq) w "") user_query)

/-- `extract_search_query`: fixed literals for time/date queries, otherwise
question-phrase removal. -/
def extract_search_query (user_query : String) : String :=
  let query_lower := pyLower user_query
  if pyIn "time" query_lower && pyIn "india" query_lower then "current time in India IST"
  else if pyIn "date" query_lower && pyIn "india" query_lower then "current date in India"
  else if pyIn "time" query_lower || pyIn "date" query_lower then "current time and date"
  else stripQuestionWords user_query

/-! ### Content Scraper: `WebSearcher.scrape_url` (lines 348-376)

The HTTP fetch and the BeautifulSoup extraction of visible text (after
decomposing script/style/nav/footer/header) are external collaborators,
modelled by a `FetchOutcome` oracle carrying the status code and the
`soup.get_text()` string. -/

/-- Outcome of `self.session.get(url, timeout=15)` plus HTML text
extraction: a raised network exception, or a page with its status and the
extracted raw text. -/
inductive FetchOutcome where
  | err
  | page (status : Nat) (rawText : String)
deriving DecidableEq

/-- Lines 364-366: strip each line of the raw text, split each on double
spaces, strip the phrases, and join the non-empty chunks with single
spaces. -/
def collapseText (text : String) : String :=
  let lines := (pySplitLines text).map pyStrip
  let chunks := ((lines.map (fun line => (pySplit line "  ").map pyStrip))).flatten
  String.intercalate " " (chunks.filter (fun c => !c.data.isEmpty))

/-- `scrape_url`: `None` on fetch error or non-200 status, otherwise the
collapsed text truncated to `max_chars` characters with `"..."` appended
when it was longer. -/
def scrape_url (fetch : FetchOutcome) (max_chars : Nat) : Option String :=
  match fetch with
  | .err => none
  | .page status rawText =>
    if status ≠ 200 then none
    else
      let text := collapseText rawText
      if text.data.length > max_chars then some (pyTake text max_chars ++ "...")
      else some text

/-! ### Search Orchestrator: `WebSearcher.search_and_scrape` (lines 378-410)

`search_google` (network search with fallbacks) is an oracle producing the
list of search results; `scrape_url` is abstracted to an oracle
`String → Option String` from URLs to scraped content. -/

/-- A search result as produced by the search backends. -/
structure SearchResult where
  title : String
  url : String
  snippet : String
deriving DecidableEq

/-- An entry of the scraped bundle. -/
structure ScrapedDoc where
  title : String
  url : String
  snippet : String
  content : String
deriving DecidableEq

/-- The return value of `search_and_scrape`. -/
inductive SearchBundle where
  | failure (error : String)
  | success (query : String) (results : List ScrapedDoc)
deriving DecidableEq

/-- Lines 389-404: scrape one result URL; a truthy scrape result becomes the
content, otherwise the snippet is used. -/
def scrapeEntry (scrape : String → Option String) (r : SearchResult) : ScrapedDoc :=
  match scrape r.url with
  | some c => if c.data.isEmpty then ⟨r.title, r.url, r.snippet, r.snippet⟩
              else ⟨r.title, r.url, r.snippet, c⟩
  | none => ⟨r.title, r.url, r.snippet, r.snippet⟩

/-- `search_and_scrape`: failure on an empty result list, otherwise the
first `num_urls` results enriched by `scrapeEntry`, in search order. -/
def search_and_scrape (query : String) (searchResults : List SearchResult)
    (scrape : String → Option String) (num_urls : Nat) : SearchBundle :=
  if searchResults.isEmpty then .failure "No search results found"
  else .success query ((searchResults.take num_urls).map (scrapeEntry scrape))

/-! ### Prompt Composer: message assembly (lines 662-676 and 1130-1143) -/

/-- A wire-level chat message. -/
structure ChatMessage where
  role : String
  content : String
deriving DecidableEq

/-- Lines 662-676: system message, then up to the last 10 history entries
when the history is truthy, then the composed user message. -/
def compose (system_prompt : String) (history : List ChatMessage)
    (user_message : String) : List ChatMessage :=
  let messages := [ChatMessage.mk "system" system_prompt]
  let messages := if history.isEmpty then messages else messages ++ pyLastN history 10
  messages ++ [ChatMessage.mk "user" user_message]

/-! ### Web context in the chat pipelines (lines 627-641 and 1093-1109)

Both the blocking `/api/chat` handler (through `SimpleChatbot.chat`) and the
streaming `/api/chat/stream` handler run this fragment, calling
`search_and_scrape` with `num_urls=2`. -/

/-- Lines 635-639: the web-context block, one `[Source i]` section per
result, 1-indexed, content excerpt capped at 1500 characters. -/
def buildWebContext (results : List ScrapedDoc) : String :=
  "\n\nWeb Search Results:\n" ++
    String.join ((List.enumFrom 1 results).map (fun p =>
      "\n[Source " ++ toString p.1 ++ "] " ++ p.2.title ++ "\n" ++
      "URL: " ++ p.2.url ++ "\n" ++
      "Content: " ++ pyTake p.2.content 1500 ++ "...\n"))

/-- The shared pipeline fragment: trigger check, query rewrite, search and
scrape with `num_urls := 2`, context built only for a truthy success. -/
def chatWebContext (user_query : String) (searchResults : List SearchResult)
    (scrape : String → Option String) : String :=
  if !(should_search_web user_query) then ""
  else
    match search_and_scrape (extract_search_query user_query) searchResults scrape 2 with
    | .failure _ => ""
    | .success _ results => if results.isEmpty then "" else buildWebContext results

/-! ### Login reminder in `/api/chat` and `/api/chat/stream`
(lines 970-1007 and 1145-1191)

The model call itself is an oracle (`modelOutput`, or the streamed `chunks`);
timestamps and persistence are external. -/

/-- One conversation turn of a session (timestamp omitted: wall-clock). -/
structure Turn where
  role : String
  content : String
deriving DecidableEq

/-- The fixed login reminder prefix (lines 996-999 and 1149-1152). -/
def login_reminder : String :=
  "Note: You are chatting anonymously. Your conversation will not be saved. " ++
  "If you want to save your chat history, please login with Google.\n\n"

/-- The streaming search notice (line 1158). -/
def search_notice : String := "[Searching the web...]\n\n"

/-- The `/api/chat` handler core: reminder decision before the user turn is
appended, response prefixing, and the turns appended to the session. -/
def handleChatBlocking (isLoggedIn : Bool) (startMessages : List Turn)
    (message : String) (modelOutput : String) : String × List Turn :=
  let showReminder := !isLoggedIn && startMessages.isEmpty
  let afterUser := startMessages ++ [Turn.mk "user" message]
  let aiResponse := if showReminder then login_reminder ++ modelOutput else modelOutput
  (aiResponse, afterUser ++ [Turn.mk "assistant" aiResponse])

/-- Everything the `/api/chat/stream` generator emits after an optional
login reminder: the search notice when a web search ran, then the model
chunks. -/
def streamBody (webSearchPerformed : Bool) (chunks : List String) : String :=
  (if webSearchPerformed then search_notice else "") ++ String.join chunks

/-- The `/api/chat/stream` handler core: the accumulated `final_text` and
the turns appended to the session. -/
def handleChatStream (isLoggedIn : Bool) (startMessages : List Turn)
    (message : String) (webSearchPerformed : Bool) (chunks : List String) :
    String × List Turn :=
  let showReminder := !isLoggedIn && startMessages.isEmpty
  let afterUser := startMessages ++ [Turn.mk "user" message]
  let finalText := (if showReminder then login_reminder else "") ++ streamBody webSearchPerformed chunks
  (finalText, afterUser ++ [Turn.mk "assistant" finalText])


/-! ### JSON values and the streaming client: `query_lm_studio_stream`
(lines 545-616)

`json.loads` is an external collaborator, modelled as a parse oracle
`String → Option Json` (`none` models a raised decode error). -/

/-- A decoded JSON value.  Numbers are modelled as integers; the claims
never inspect numeric values beyond truthiness. -/
inductive Json where
  | null
  | bool (b : Bool)
  | num (n : Int)
  | str (s : String)
  | arr (elems : List Json)
  | obj (fields : List (String × Json))

/-- Python truthiness of a decoded JSON value. -/
def truthy : Json → Bool
  | .null => false
  | .bool b => b
  | .num n => n != 0
  | .str s => !s.data.isEmpty
  | .arr elems => !elems.isEmpty
  | .obj fields => !fields.isEmpty

/-- Python `dict.get(key)`: the first binding of the key, if any. -/
def jlookup (fields : List (String × Json)) (key : String) : Option Json :=
  (fields.find? (fun p => p.1 == key)).map (fun p => p.2)

/-- Python `value[0]`: first element of a list, first character of a
non-empty string; anything else raises (`none`). -/
def pyIndexZero : Json → Option Json
  | .arr (x :: _) => some x
  | .str ⟨c :: _⟩ => some (.str (String.mk [c]))
  | _ => none

/-- The `elif ch.get("message")` arm of the stream chunk handler
(lines 604-609): `none` when nothing is yielded, covering both falsy
fragments and exceptions swallowed by the `except` clause. -/
def extractChunkMessage (chFields : List (String × Json)) : Option String :=
  match jlookup chFields "message" with
  | none => none
  | some msg =>
    if !truthy msg then none
    else
      match msg with
      | .obj msgFields =>
        match jlookup msgFields "content" with
        | none => none
        | some contentVal =>
          if truthy contentVal then
            match contentVal with
            | .str s =>
              let cleaned := clean_text s
              if cleaned.data.isEmpty then none else some cleaned
            | _ => none
          else none
      | _ => none

/-- Lines 593-609 applied to one parsed chunk: the yielded fragment, or
`none` when the line yields nothing (falsy values, missing keys, or an
exception swallowed by the `except` clause). -/
def extractChunk : Json → Option String
  | .obj fields =>
    match jlookup fields "choices" with
    | none => none
    | some choices =>
      if !truthy choices then none
      else
        match pyIndexZero choices with
        | none => none
        | some ch =>
          match ch with
          | .obj chFields =>
            match (jlookup chFields "delta").getD (.obj []) with
            | .obj deltaFields =>
              if (jlookup deltaFields "content").isSome then
                match jlookup deltaFields "content" with
                | some contentVal =>
                  if truthy contentVal then
                    match contentVal with
                    | .str s =>
                      let cleaned := clean_text s
                      if cleaned.data.isEmpty then none else some cleaned
                    | _ => none
                  else none
                | none => none
              else extractChunkMessage chFields
            | _ => extractChunkMessage chFields
          | _ => none
  | _ => none

/-- Lines 582-587 on one raw line: strip, then strip a leading `data:`
prefix and strip again. -/
def normLine (raw : String) : String :=
  let line := pyStrip raw
  if pyStartsWith line "data:" then pyStrip (pyDrop line 5) else line

/-- Lines 579-612: the fragments yielded for the body lines, in order. -/
def processLines (parse : String → Option Json) : List String → List String
  | [] => []
  | raw :: rest =>
    if (pyStrip raw).data.isEmpty then processLines parse rest
    else
      let line := normLine raw
      if line = "[DONE]" then []
      else
        match parse line with
        | none => processLines parse rest
        | some obj =>
          match extractChunk obj with
          | none => processLines parse rest
          | some c => c :: processLines parse rest

/-- The decoded form of a delta-content SSE chunk. -/
def deltaObj (s : String) : Json :=
  .obj [("choices", .arr [.obj [("delta", .obj [("content", .str s)])]])]

/-- The SSE line `data: {"choices":[{"delta":{"content":"Hi"}}]}`. -/
def sseLine1 : String := "data: \x7b\"choices\":[\x7b\"delta\":\x7b\"content\":\"Hi\"\x7d\x7d]\x7d"

/-- `sseLine1` after stripping the `data:` prefix. -/
def sseStripped : String := "\x7b\"choices\":[\x7b\"delta\":\x7b\"content\":\"Hi\"\x7d\x7d]\x7d"

/-- A concrete parse oracle decoding exactly `sseStripped`. -/
def sseParse : String → Option Json :=
  fun line => if line = sseStripped then some (deltaObj "Hi") else none

/-! ### Model Client: `query_lm_studio` (lines 478-543)

`requests.post` is an external collaborator: `net m` is the outcome of
posting the payload whose model name is `m` (messages, temperature and
max_tokens are the same for the first call and the retry).
`requests.exceptions.JSONDecodeError` is a `RequestException`, so a
success response whose body fails to decode is caught by the outer
handler; the key/index errors of the success-path extraction are not. -/

mutual

/-- Python `repr`/`str` of a decoded JSON value (escaping inside string
reprs is not modelled; no claim depends on it). -/
def pyRepr : Json → String
  | .null => "None"
  | .bool true => "True"
  | .bool false => "False"
  | .num n => toString n
  | .str s => apos ++ s ++ apos
  | .arr elems => "[" ++ pyReprList elems ++ "]"
  | .obj fields => "\x7b" ++ pyReprFields fields ++ "\x7d"

/-- Comma-separated reprs of array elements. -/
def pyReprList : List Json → String
  | [] => ""
  | [x] => pyRepr x
  | x :: y :: rest => pyRepr x ++ ", " ++ pyReprList (y :: rest)

/-- Comma-separated `key: value` reprs of object fields. -/
def pyReprFields : List (String × Json) → String
  | [] => ""
  | [(k, v)] => apos ++ k ++ apos ++ ": " ++ pyRepr v
  | (k, v) :: p :: rest => apos ++ k ++ apos ++ ": " ++ pyRepr v ++ ", " ++ pyReprFields (p :: rest)

end

/-- Python `str(v)`: a string stays itself, anything else is its repr. -/
def strTop : Json → String
  | .str s => s
  | v => pyRepr v

/-- Outcome of one `requests.post`: a raised `RequestException`, or a
response with `ok`, its decoded JSON body (`none` when `.json()` raises)
and its `.text`. -/
inductive PostOutcome where
  | netErr
  | resp (ok : Bool) (jsonBody : Option Json) (text : String)

/-- Result of `query_lm_studio`: a returned string together with the value
of `self.model_name` afterwards, or an uncaught exception. -/
inductive QueryResult where
  | ret (response : String) (model : String)
  | raised (model : String)
deriving DecidableEq

/-- The fixed connection-failure message (line 543). -/
def connection_error_msg : String :=
  "Sorry, I couldn" ++ apos ++
  "t connect to the language model. Please ensure LM Studio is running at http://localhost:1200"

/-- The fixed model-error message (line 535). -/
def model_error_msg : String :=
  "Sorry, the language model returned an error. Please check that LM Studio is running and a model is loaded."

/-- Python `j[k]` for decoded values: `none` models a raised exception. -/
def pyIndexKey (j : Json) (k : String) : Option Json :=
  match j with
  | .obj fields => jlookup fields k
  | _ => none

/-- `result["choices"][0]["message"]["content"]` (lines 530 and 537-538);
`none` models a raised KeyError, IndexError or TypeError. -/
def getContentVal (result : Json) : Option Json :=
  (pyIndexKey result "choices").bind fun choices =>
    (pyIndexZero choices).bind fun ch =>
      (pyIndexKey ch "message").bind fun msg =>
        pyIndexKey msg "content"

/-- `self.clean_text(result)` for an arbitrary decoded value: falsy values
hit the `if not text` guard and give `""`, strings are cleaned, and a
truthy non-string raises (`none`). -/
def cleanAny : Json → Option String
  | .str s => some (clean_text s)
  | v => if truthy v then none else some ""

/-- Lines 503-508: `str(body_text)` for an error response: the error
message when it is truthy, the repr of the whole body when the message is
missing or falsy, and `response.text` when decoding or a `.get` on a
non-dict raises inside the inner `try`. -/
def bodyText (jsonBody : Option Json) (respText : String) : String :=
  match jsonBody with
  | none => respText
  | some j =>
    match j with
    | .obj fields =>
      match (jlookup fields "error").getD (.obj []) with
      | .obj errFields =>
        match jlookup errFields "message" with
        | some m => if truthy m then strTop m else pyRepr j
        | none => pyRepr j
      | _ => respText
    | _ => respText

/-- Python `s.split(marker, 1)[1]`: the remainder after the first
occurrence of the marker, if the marker occurs. -/
def afterFirst (marker : List Char) : List Char → Option (List Char)
  | [] => if marker.isEmpty then some [] else none
  | c :: rest =>
    if marker.isPrefixOf (c :: rest) then some ((c :: rest).drop marker.length)
    else afterFirst marker rest

/-- Line 517: the stripped non-empty lines after `Your models:`. -/
def fallbackCandidates (bt : String) : Option (List String) :=
  match afterFirst ("Your models:").data bt.data with
  | none => none
  | some tail =>
    some (((pySplitLines (String.mk tail)).map pyStrip).filter (fun s => !s.data.isEmpty))

/-- `query_lm_studio` (lines 478-543).  The success-path content extraction
sits outside any `except Exception`, so its failures surface as `raised`;
the whole fallback block is inside `except Exception`, so every fallback
failure falls through to the model-error string with `self.model_name`
already switched to the chosen candidate. -/
def query_lm_studio (model : String) (net : String → PostOutcome) : QueryResult :=
  match net model with
  | .netErr => .ret connection_error_msg model
  | .resp ok jsonBody text =>
    if ok then
      match jsonBody with
      | none => .ret connection_error_msg model
      | some j =>
        match getContentVal j with
        | none => .raised model
        | some v =>
          match cleanAny v with
          | none => .raised model
          | some s => .ret s model
    else
      let bt := bodyText jsonBody text
      if pyIn "model_not_found" (pyLower bt) && pyIn "your models:" (pyLower bt) then
        match fallbackCandidates bt with
        | none => .ret model_error_msg model
        | some [] => .ret model_error_msg model
        | some (chosen :: _) =>
          match net chosen with
          | .netErr => .ret model_error_msg chosen
          | .resp rok rjson _ =>
            if rok then
              match rjson with
              | none => .ret model_error_msg chosen
              | some rj =>
                match getContentVal rj with
                | none => .ret model_error_msg chosen
                | some rv =>
                  match cleanAny rv with
                  | none => .ret model_error_msg chosen
                  | some rs => .ret rs chosen
            else .ret model_error_msg chosen
      else .ret model_error_msg model

/-- An error body carrying a `model_not_found` message that lists one
available model. -/
def errBodyCex : Json :=
  Json.obj [("error", Json.obj [("message",
    Json.str "model_not_found. Your models:\nfallback-model\n")])]

/-- A well-formed success body with content "Hello". -/
def goodBodyCex : Json :=
  Json.obj [("choices", Json.arr [Json.obj [("message",
    Json.obj [("content", Json.str "Hello")])]])]

/-- A network oracle that rejects every model except `fallback-model`. -/
def fallbackNet : String → PostOutcome := fun m =>
  if m = "fallback-model" then PostOutcome.resp true (some goodBodyCex) ""
  else PostOutcome.resp false (some errBodyCex) "err"

/-! ### Theorems -/

theorem clean_text_data (s : String) :
    (clean_text s).data = s.data.filter (fun c => c != Char.ofNat 0xFFFD && decide (c.toNat < 0x10000)) := by
  by_cases h : s.data.isEmpty
  · simp_all [clean_text, List.isEmpty_iff]
  · simp only [clean_text, h, Bool.false_eq_true, if_false, List.filter_filter]
    congr 1
    funext c
    exact Bool.and_comm _ _

/-- Claim C8: `clean_text` output contains no U+FFFD and no code point at or
above `0x10000`, keeps all other characters in order (it is exactly the
filter keeping the allowed characters), is idempotent, and maps
`"a�b"` to `"ab"`. -/
theorem clean_text_spec (s : String) :
    ((clean_text s).data = s.data.filter (fun c => c != Char.ofNat 0xFFFD && decide (c.toNat < 0x10000))) ∧
    (∀ c ∈ (clean_text s).data, c ≠ Char.ofNat 0xFFFD ∧ c.toNat < 0x10000) ∧
    clean_text (clean_text s) = clean_text s ∧
    clean_text "a�b" = "ab" := by
  refine ⟨clean_text_data s, ?_, ?_, by decide⟩
  · intro c hc
    rw [clean_text_data] at hc
    rcases List.mem_filter.mp hc with ⟨-, h2⟩
    simpa using h2
  · apply String.ext
    rw [clean_text_data, clean_text_data, List.filter_filter]
    simp [Bool.and_comm]

theorem clean_text_spec_witness :
    clean_text (clean_text "a�b") = clean_text "a�b" ∧
    ('a' ≠ Char.ofNat 0xFFFD ∧ 'a'.toNat < 0x10000) :=
  ⟨(clean_text_spec "a�b").2.2.1,
   (clean_text_spec "a�b").2.1 'a' (by decide)⟩

theorem should_search_web_eq_any (q : String) :
    should_search_web q = allTriggerKeywords.any (fun k => pyIn k (pyLower q)) := by
  simp only [should_search_web, allTriggerKeywords, List.any_append]
  cases h1 : time_date_keywords.any (fun k => pyIn k (pyLower q)) <;>
  cases h2 : institutional_keywords.any (fun k => pyIn k (pyLower q)) <;> simp

/-- Claim C2: `should_search_web` is a pure, deterministic, case-insensitive
function of the query: it is true exactly when the lower-cased query has a
substring among the time/date keywords, the institutional keywords, or the
broader indicator list; `should_search_web "What TIME is it?"` is true and
`should_search_web "tell me a joke"` is false. -/
theorem should_search_web_spec (q q' : String) :
    (should_search_web q = true ↔ ∃ kw ∈ allTriggerKeywords, pyIn kw (pyLower q) = true) ∧
    (pyLower q = pyLower q' → should_search_web q = should_search_web q') ∧
    should_search_web "What TIME is it?" = true ∧
    should_search_web "tell me a joke" = false := by
  refine ⟨?_, ?_, by decide, by decide⟩
  · rw [should_search_web_eq_any, List.any_eq_true]
  · intro h
    simp only [should_search_web]
    rw [h]

theorem should_search_web_spec_witness :
    should_search_web "What TIME is it?" = should_search_web "what time is it?" ∧
    should_search_web "What TIME is it?" = true ∧
    should_search_web "now" = true :=
  ⟨(should_search_web_spec "What TIME is it?" "what time is it?").2.1 (by decide),
   (should_search_web_spec "What TIME is it?" "x").2.2.1,
   (should_search_web_spec "now" "x").1.mpr ⟨"now", by decide, by decide⟩⟩

/-- Claim C3: `extract_search_query` returns the fixed literal
`"current time in India IST"` when the lower-cased query has both "time" and
"india", else `"current date in India"` for "date" and "india", else
`"current time and date"` when "time" or "date" occurs, and otherwise the
lower-cased query with every question phrase replaced away and the result
stripped; in particular the India time query maps to the exact literal. -/
theorem extract_search_query_spec (q : String) :
    (pyIn "time" (pyLower q) = true → pyIn "india" (pyLower q) = true →
      extract_search_query q = "current time in India IST") ∧
    ((pyIn "time" (pyLower q) && pyIn "india" (pyLower q)) = false →
      pyIn "date" (pyLower q) = true → pyIn "india" (pyLower q) = true →
      extract_search_query q = "current date in India") ∧
    ((pyIn "time" (pyLower q) && pyIn "india" (pyLower q)) = false →
      (pyIn "date" (pyLower q) && pyIn "india" (pyLower q)) = false →
      (pyIn "time" (pyLower q) || pyIn "date" (pyLower q)) = true →
      extract_search_query q = "current time and date") ∧
    (pyIn "time" (pyLower q) = false → pyIn "date" (pyLower q) = false →
      extract_search_query q = stripQuestionWords q) ∧
    extract_search_query "what time is it in india" = "current time in India IST" := by
  refine ⟨?_, ?_, ?_, ?_, by decide⟩
  · intro h1 h2
    simp [extract_search_query, h1, h2]
  · intro h12 h3 h2
    simp only [extract_search_query]
    rw [h12, h3, h2]
    simp
  · intro h12 h32 hor
    simp only [extract_search_query]
    rw [h12, h32, hor]
    simp
  · intro h1 h3
    simp [extract_search_query, h1, h3]

theorem extract_search_query_spec_witness :
    extract_search_query "what time is it in india" = "current time in India IST" ∧
    extract_search_query "Tell me a joke" = stripQuestionWords "Tell me a joke" :=
  ⟨(extract_search_query_spec "what time is it in india").1 (by decide) (by decide),
   (extract_search_query_spec "Tell me a joke").2.2.2.1 (by decide) (by decide)⟩

theorem string_data_append (a b : String) : (a ++ b).data = a.data ++ b.data := rfl

/-- Claim C7: `scrape_url` never raises (it is a total function into
`Option`): a fetch error or a non-200 status yields `none`; a returned text
has length at most `max_chars` plus the marker length 3, and whenever the
collapsed page text is longer than `max_chars` the returned text ends with
the `"..."` marker. -/
theorem scrape_url_spec (fetch : FetchOutcome) (max_chars : Nat) :
    (scrape_url FetchOutcome.err max_chars = none) ∧
    (∀ status rawText, status ≠ 200 →
      scrape_url (FetchOutcome.page status rawText) max_chars = none) ∧
    (∀ t, scrape_url fetch max_chars = some t → t.data.length ≤ max_chars + 3) ∧
    (∀ status rawText t, fetch = FetchOutcome.page status rawText →
      scrape_url fetch max_chars = some t →
      (collapseText rawText).data.length > max_chars → "...".data <:+ t.data) := by
  refine ⟨rfl, ?_, ?_, ?_⟩
  · intro status rawText h
    simp [scrape_url, h]
  · intro t ht
    cases fetch with
    | err => simp [scrape_url] at ht
    | page status rawText =>
      by_cases hs : status ≠ 200
      · simp [scrape_url, hs] at ht
      · by_cases hlen : (collapseText rawText).data.length > max_chars
        · simp only [scrape_url, hs, if_false, hlen, if_true] at ht
          injection ht with ht
          subst ht
          simp [string_data_append, pyTake, List.length_take]
        · simp only [scrape_url, hs, if_false, hlen, if_true] at ht
          injection ht with ht
          subst ht
          omega
  · intro status rawText t hf ht hlong
    subst hf
    by_cases hs : status ≠ 200
    · simp [scrape_url, hs] at ht
    · simp only [scrape_url, hs, if_false, hlong, if_true] at ht
      injection ht with ht
      subst ht
      rw [string_data_append]
      exact List.suffix_append _ _

theorem scrape_url_spec_witness :
    scrape_url (FetchOutcome.page 200 "abcdef") 2 = some "ab..." ∧
    ("ab..." : String).data.length ≤ 2 + 3 ∧
    "...".data <:+ ("ab..." : String).data := by
  have h := scrape_url_spec (FetchOutcome.page 200 "abcdef") 2
  have hv : scrape_url (FetchOutcome.page 200 "abcdef") 2 = some "ab..." := by decide
  exact ⟨hv, h.2.2.1 "ab..." hv, h.2.2.2 200 "abcdef" "ab..." rfl hv (by decide)⟩

/-- Claim C1 (counterexample): with one search result whose snippet is empty
and a scrape that fails, `search_and_scrape` succeeds but the single
returned entry has empty content, refuting "each with non-empty content". -/
theorem search_and_scrape_empty_content_cex :
    search_and_scrape "q" [SearchResult.mk "t" "u" ""] (fun _ => none) 1
      = SearchBundle.success "q" [ScrapedDoc.mk "t" "u" "" ""] ∧
    (ScrapedDoc.mk "t" "u" "" "").content = "" := by
  constructor <;> rfl

/-- Claim C1 (amended): `search_and_scrape` fails with error
"No search results found" exactly on an empty search result list; otherwise
it succeeds with exactly `min num_urls (number of search results)` entries,
in search order, each entry carrying the source title/url/snippet and as
content the scraped text when the scrape was truthy, else the snippet; the
contents are all non-empty provided every snippet is non-empty. -/
theorem search_and_scrape_spec (query : String) (searchResults : List SearchResult)
    (scrape : String → Option String) (num_urls : Nat) :
    (searchResults = [] → search_and_scrape query searchResults scrape num_urls
        = SearchBundle.failure "No search results found") ∧
    (searchResults ≠ [] → search_and_scrape query searchResults scrape num_urls
        = SearchBundle.success query ((searchResults.take num_urls).map (scrapeEntry scrape))) ∧
    ((searchResults.take num_urls).map (scrapeEntry scrape)).length
        = min num_urls searchResults.length ∧
    (∀ r : SearchResult, (scrapeEntry scrape r).title = r.title ∧
      (scrapeEntry scrape r).url = r.url ∧
      (scrapeEntry scrape r).snippet = r.snippet ∧
      ((scrapeEntry scrape r).content = r.snippet ∨
        scrape r.url = some (scrapeEntry scrape r).content)) ∧
    ((∀ r ∈ searchResults, r.snippet ≠ "") →
      ∀ d ∈ (searchResults.take num_urls).map (scrapeEntry scrape), d.content ≠ "") := by
  refine ⟨?_, ?_, ?_, ?_, ?_⟩
  · intro h
    subst h
    rfl
  · intro h
    simp [search_and_scrape, h]
  · simp [List.length_take]
  · intro r
    cases hsc : scrape r.url with
    | none => simp [scrapeEntry, hsc]
    | some c =>
      by_cases hc : c.data.isEmpty
      · simp [scrapeEntry, hsc, hc]
      · simp [scrapeEntry, hsc, hc]
  · intro hsn d hd
    rcases List.mem_map.mp hd with ⟨r, hr, hdr⟩
    have hrs : r ∈ searchResults := List.mem_of_mem_take hr
    subst hdr
    cases hsc : scrape r.url with
    | none => simpa [scrapeEntry, hsc] using hsn r hrs
    | some c =>
      by_cases hc : c.data.isEmpty
      · simpa [scrapeEntry, hsc, hc] using hsn r hrs
      · simp only [scrapeEntry, hsc, hc, Bool.false_eq_true, if_false]
        intro hce
        subst hce
        simp at hc

theorem search_and_scrape_spec_witness :
    search_and_scrape "q" [SearchResult.mk "t" "u" "s"] (fun _ => some "body") 1
      = SearchBundle.success "q" [ScrapedDoc.mk "t" "u" "s" "body"] ∧
    (∀ d ∈ ([SearchResult.mk "t" "u" "s"].take 1).map
        (scrapeEntry (fun _ => some "body")), d.content ≠ "") := by
  have h := search_and_scrape_spec "q" [SearchResult.mk "t" "u" "s"] (fun _ => some "body") 1
  refine ⟨?_, h.2.2.2.2 (by decide)⟩
  have h2 := h.2.1 (by simp)
  simpa using h2

/-- Claim C4: the composed message sequence is the system message, then the
last-10 slice of the history, then the final user message; the slice never
has more than 10 entries, and for a 15-turn history it is exactly the last
10 turns in original order. -/
theorem compose_spec (system_prompt user_message : String) (history : List ChatMessage) :
    compose system_prompt history user_message
      = ChatMessage.mk "system" system_prompt ::
          (pyLastN history 10 ++ [ChatMessage.mk "user" user_message]) ∧
    (pyLastN history 10).length ≤ 10 ∧
    (history.length = 15 → pyLastN history 10 = history.drop 5) := by
  refine ⟨?_, ?_, ?_⟩
  · by_cases h : history.isEmpty
    · have he : history = [] := List.isEmpty_iff.mp h
      subst he
      simp [compose, pyLastN]
    · simp [compose, h, pyLastN]
  · simp only [pyLastN, List.length_drop]
    omega
  · intro h
    simp [pyLastN, h]

theorem compose_spec_witness :
    pyLastN (List.replicate 15 (ChatMessage.mk "user" "m")) 10
        = (List.replicate 15 (ChatMessage.mk "user" "m")).drop 5 ∧
    (pyLastN (List.replicate 15 (ChatMessage.mk "user" "m")) 10).length ≤ 10 :=
  ⟨(compose_spec "s" "u" (List.replicate 15 (ChatMessage.mk "user" "m"))).2.2 (by simp),
   (compose_spec "s" "u" (List.replicate 15 (ChatMessage.mk "user" "m"))).2.1⟩

/-- Claim C9: both chat pipelines call `search_and_scrape` with
`num_urls = 2` (see `chatWebContext`), so a success bundle there has at most
2 entries and the web-context block is built from at most 2 sources. -/
theorem chatWebContext_spec (user_query q : String) (searchResults : List SearchResult)
    (scrape : String → Option String) (docs : List ScrapedDoc) :
    (search_and_scrape q searchResults scrape 2 = SearchBundle.success q docs →
      docs.length ≤ 2) ∧
    (chatWebContext user_query searchResults scrape = "" ∨
      ∃ results : List ScrapedDoc, results.length ≤ 2 ∧
        chatWebContext user_query searchResults scrape = buildWebContext results) := by
  constructor
  · intro h
    by_cases he : searchResults.isEmpty
    · simp [search_and_scrape, he] at h
    · simp only [search_and_scrape, he, Bool.false_eq_true, if_false,
        SearchBundle.success.injEq] at h
      rw [← h.2]
      simp [List.length_take]
  · by_cases hs : should_search_web user_query
    · cases searchResults with
      | nil =>
        left
        simp [chatWebContext, hs, search_and_scrape]
      | cons y ys =>
        right
        refine ⟨((y :: ys).take 2).map (scrapeEntry scrape), ?_, ?_⟩
        · simp only [List.length_map, List.length_take]
          exact Nat.min_le_left _ _
        · simp [chatWebContext, hs, search_and_scrape]
    · left
      simp [chatWebContext, hs]

theorem chatWebContext_spec_witness :
    ([ScrapedDoc.mk "t1" "u1" "s1" "s1", ScrapedDoc.mk "t2" "u2" "s2" "s2"]).length ≤ 2 :=
  (chatWebContext_spec "now" "q"
    [SearchResult.mk "t1" "u1" "s1", SearchResult.mk "t2" "u2" "s2",
     SearchResult.mk "t3" "u3" "s3"] (fun _ => none)
    [ScrapedDoc.mk "t1" "u1" "s1" "s1", ScrapedDoc.mk "t2" "u2" "s2" "s2"]).1 (by decide)

/-- Claim C10: on the first message of an anonymous session (empty turn list
at request start) both handlers prefix the fixed login reminder to the
response body, and that prefixed text is the assistant turn appended to the
session; a later anonymous message or any logged-in message gets the bare
body with no prefix. -/
theorem login_reminder_spec (message modelOutput : String) (chunks : List String)
    (web : Bool) (start : List Turn) :
    (handleChatBlocking false [] message modelOutput
      = (login_reminder ++ modelOutput,
         [Turn.mk "user" message, Turn.mk "assistant" (login_reminder ++ modelOutput)])) ∧
    (handleChatStream false [] message web chunks
      = (login_reminder ++ streamBody web chunks,
         [Turn.mk "user" message,
          Turn.mk "assistant" (login_reminder ++ streamBody web chunks)])) ∧
    (start ≠ [] →
      (handleChatBlocking false start message modelOutput).1 = modelOutput ∧
      (handleChatStream false start message web chunks).1 = streamBody web chunks) ∧
    ((handleChatBlocking true start message modelOutput).1 = modelOutput ∧
     (handleChatStream true start message web chunks).1 = streamBody web chunks) := by
  refine ⟨rfl, rfl, ?_, by constructor <;> rfl⟩
  intro h
  have he : start.isEmpty = false := by
    cases start with
    | nil => exact absurd rfl h
    | cons y ys => rfl
  constructor
  · simp [handleChatBlocking, he]
  · simp [handleChatStream, he]

theorem login_reminder_spec_witness :
    (handleChatBlocking false [] "hi" "out").1 = login_reminder ++ "out" ∧
    (handleChatBlocking false [Turn.mk "user" "x"] "hi" "out").1 = "out" ∧
    (handleChatStream false [Turn.mk "user" "x"] "hi" false ["a", "b"]).1
      = streamBody false ["a", "b"] :=
  ⟨congrArg Prod.fst (login_reminder_spec "hi" "out" [] false []).1,
   ((login_reminder_spec "hi" "out" ["a", "b"] false [Turn.mk "user" "x"]).2.2.1
      (by simp)).1,
   ((login_reminder_spec "hi" "out" ["a", "b"] false [Turn.mk "user" "x"]).2.2.1
      (by simp)).2⟩

theorem processLines_cons (parse : String → Option Json) (raw : String) (rest : List String) :
    processLines parse (raw :: rest) =
      if (pyStrip raw).data.isEmpty then processLines parse rest
      else if normLine raw = "[DONE]" then []
      else match parse (normLine raw) with
        | none => processLines parse rest
        | some obj => match extractChunk obj with
          | none => processLines parse rest
          | some c => c :: processLines parse rest := rfl

/-- Claim C5: the streaming client processes the response line by line:
lines are stripped, a leading `data:` prefix is stripped, a `[DONE]` line
terminates the stream, a line whose JSON parse or fragment extraction fails
is skipped without aborting, a parsed line with a non-empty fragment yields
the sanitized fragment, and the two-line SSE body with delta content "Hi"
followed by `[DONE]` yields exactly the chunk "Hi" and no error chunk. -/
theorem stream_parse_spec (parse : String → Option Json) (l : String)
    (rest : List String) (j : Json) (s : String) :
    (parse sseStripped = some (deltaObj "Hi") →
      processLines parse [sseLine1, "data: [DONE]"] = ["Hi"]) ∧
    (processLines parse ("data: [DONE]" :: rest) = []) ∧
    (normLine l ≠ "[DONE]" → parse (normLine l) = none →
      processLines parse (l :: rest) = processLines parse rest) ∧
    (normLine l ≠ "[DONE]" → parse (normLine l) = some j → extractChunk j = none →
      processLines parse (l :: rest) = processLines parse rest) ∧
    (normLine l ≠ "[DONE]" → (pyStrip l).data.isEmpty = false →
      parse (normLine l) = some j → extractChunk j = some s →
      processLines parse (l :: rest) = s :: processLines parse rest) ∧
    (extractChunk (deltaObj s)
      = if s.data.isEmpty then none
        else if (clean_text s).data.isEmpty then none
        else some (clean_text s)) := by
  have hdone : ∀ tail, processLines parse ("data: [DONE]" :: tail) = [] := by
    intro tail
    rw [processLines_cons]
    have h1 : (pyStrip "data: [DONE]").data.isEmpty = false := by decide
    have h2 : normLine "data: [DONE]" = "[DONE]" := by decide
    rw [h1, h2]
    simp
  refine ⟨?_, hdone rest, ?_, ?_, ?_, ?_⟩
  · intro h
    rw [processLines_cons]
    have h1 : (pyStrip sseLine1).data.isEmpty = false := by decide
    have h2 : normLine sseLine1 = sseStripped := by decide
    rw [h1, h2, if_neg (by decide : ¬(sseStripped = "[DONE]")), h]
    have h3 : extractChunk (deltaObj "Hi") = some "Hi" := rfl
    simp only [h3, Bool.false_eq_true, if_false]
    rw [hdone []]
  · intro hnd hp
    rw [processLines_cons]
    by_cases hemp : (pyStrip l).data.isEmpty
    · simp [hemp]
    · simp [hemp, if_neg hnd, hp]
  · intro hnd hp hx
    rw [processLines_cons]
    by_cases hemp : (pyStrip l).data.isEmpty
    · simp [hemp]
    · simp [hemp, if_neg hnd, hp, hx]
  · intro hnd hemp hp hx
    rw [processLines_cons]
    simp [hemp, if_neg hnd, hp, hx]
  · cases hs : s.data.isEmpty <;>
    cases hc : (clean_text s).data.isEmpty <;>
    simp [extractChunk, deltaObj, jlookup, truthy, pyIndexZero, hs, hc]

theorem stream_parse_spec_witness :
    processLines sseParse [sseLine1, "data: [DONE]"] = ["Hi"] ∧
    processLines sseParse ("data: \x7bbad" :: [sseLine1, "data: [DONE]"])
      = processLines sseParse [sseLine1, "data: [DONE]"] :=
  ⟨(stream_parse_spec sseParse "x" [] Json.null "y").1 rfl,
   (stream_parse_spec sseParse "data: \x7bbad" [sseLine1, "data: [DONE]"]
      Json.null "y").2.2.1 (by decide) rfl⟩

/-- Claim C6 (counterexample): an HTTP-ok response whose JSON body decodes
to an empty object makes `query_lm_studio` raise an uncaught KeyError (only
RequestException is caught around the success path), refuting "never
raises". -/
theorem query_lm_studio_raises_cex :
    query_lm_studio "model-a" (fun _ => PostOutcome.resp true (some (Json.obj [])) "")
      = QueryResult.raised "model-a" := rfl

/-- Claim C6 (amended): `query_lm_studio` never raises on network errors or
non-success HTTP responses (those produce one of the two fixed degraded
strings), and it raises only when a success response body lacks the
expected choices-message-content shape; when the error body text mentions
`model_not_found` and `your models:` it retries exactly once against the
first candidate listed after `Your models:`, switching the active model to
that candidate for the retry and afterwards (whether or not the retry
succeeds); a well-formed retry success returns the cleaned content with
the model switched; a well-formed plain success returns the cleaned content
with the model unchanged. -/
theorem query_lm_studio_spec (model : String) (net : String → PostOutcome)
    (jsonBody : Option Json) (text text' : String) (chosen : String)
    (more : List String) (j : Json) (s : String) :
    (net model = PostOutcome.netErr →
      query_lm_studio model net = QueryResult.ret connection_error_msg model) ∧
    (net model = PostOutcome.resp false jsonBody text →
      (pyIn "model_not_found" (pyLower (bodyText jsonBody text)) &&
       pyIn "your models:" (pyLower (bodyText jsonBody text))) = false →
      query_lm_studio model net = QueryResult.ret model_error_msg model) ∧
    (net model = PostOutcome.resp false jsonBody text →
      (pyIn "model_not_found" (pyLower (bodyText jsonBody text)) &&
       pyIn "your models:" (pyLower (bodyText jsonBody text))) = true →
      fallbackCandidates (bodyText jsonBody text) = some (chosen :: more) →
      net chosen = PostOutcome.resp true (some j) text' →
      getContentVal j = some (Json.str s) →
      query_lm_studio model net = QueryResult.ret (clean_text s) chosen) ∧
    (net model = PostOutcome.resp false jsonBody text →
      (pyIn "model_not_found" (pyLower (bodyText jsonBody text)) &&
       pyIn "your models:" (pyLower (bodyText jsonBody text))) = true →
      fallbackCandidates (bodyText jsonBody text) = some (chosen :: more) →
      net chosen = PostOutcome.netErr →
      query_lm_studio model net = QueryResult.ret model_error_msg chosen) ∧
    (net model = PostOutcome.resp true (some j) text →
      getContentVal j = some (Json.str s) →
      query_lm_studio model net = QueryResult.ret (clean_text s) model) := by
  refine ⟨?_, ?_, ?_, ?_, ?_⟩
  · intro h
    simp [query_lm_studio, h]
  · intro hnet hcond
    simp [query_lm_studio, hnet, hcond]
  · intro hnet hcond hfc hretry hcv
    simp [query_lm_studio, hnet, hcond, hfc, hretry, hcv, cleanAny]
  · intro hnet hcond hfc hretry
    simp [query_lm_studio, hnet, hcond, hfc, hretry]
  · intro hnet hcv
    simp [query_lm_studio, hnet, hcv, cleanAny]

theorem query_lm_studio_spec_witness :
    query_lm_studio "model-a" fallbackNet
      = QueryResult.ret (clean_text "Hello") "fallback-model" :=
  (query_lm_studio_spec "model-a" fallbackNet (some errBodyCex) "err" ""
      "fallback-model" [] goodBodyCex "Hello").2.2.1
    rfl (by decide) (by decide) rfl rfl
